import Mathlib

/-!
Verification of `check_aprs.py`: a passive Icinga monitoring daemon that
classifies APRS-IS frames and submits passive check results.

The embedding models the pure content of the script:
* byte strings (`bytes`) as `List Nat`, decoded text (`str`) as `List Char`;
* `bytes.decode("ascii")` as `decodeAscii`, which fails on any byte ≥ 128
  (`UnicodeDecodeError`), mirroring Python's strict ascii codec;
* `str.split(",")` as `splitComma`;
* the `match packet.info:` dispatch of `APRSListener.handle_packet` as the
  total function `classify`, one branch function per case arm, tried in
  source order (first match wins);
* the request dictionary built by `APRSListener.submit_check` as the
  structure `SubmitRequest`;
* the host list extraction of `APRSListener.get_callsigns` and the startup
  logic of `APRSListener.run` as trace-producing functions.
-/

namespace CheckAprs

/-- Python exceptions that the script can raise while handling a packet or a
backend response. -/
inductive PyError where
  | UnicodeDecodeError
  | ValueError
  | AttributeError
deriving DecidableEq, Repr

/-- The `aprs.DataType` enum values that `handle_packet` discriminates on;
every other member of the enum is collapsed into `OTHER` (the code never
inspects them). -/
inductive DataType where
  | TELEMETRY_DATA
  | STATION_CAPABILITIES
  | OTHER
deriving DecidableEq, Repr

/-- The shapes of `packet.info` that `handle_packet` matches on:
`aprs.PositionReport` (its unused `_position` field is omitted) and
`aprs.InformationField` with a `data_type` and a raw `comment` byte string. -/
inductive Info where
  | PositionReport (comment : List Nat)
  | InformationField (data_type : DataType) (comment : List Nat)
deriving DecidableEq, Repr

/-- One frame from the feed: `packet.source` and `packet.info`. -/
structure Packet where
  source : List Char
  info : Info
deriving DecidableEq, Repr

/-- The comment byte string carried by either `Info` variant. -/
def Info.comment : Info → List Nat
  | .PositionReport c => c
  | .InformationField _ c => c

/-- Model of `bytes.decode("ascii")`: succeeds iff every byte is < 128,
returning the corresponding characters; otherwise `UnicodeDecodeError`. -/
def decodeAscii (bs : List Nat) : Except PyError (List Char) :=
  if bs.all (fun b => b < 128) then .ok (bs.map Char.ofNat)
  else .error PyError.UnicodeDecodeError

/-- Model of Python `str.split(",")`: splits at every comma, keeping empty
fields; the empty string yields one empty field. -/
def splitComma : List Char → List (List Char)
  | [] => [[]]
  | c :: cs =>
    if c = ',' then [] :: splitComma cs
    else
      match splitComma cs with
      | [] => [[c]]
      | f :: fs => (c :: f) :: fs

/-- Joins fields with a separator, the inverse of splitting: models Python
`sep.join(fields)` (used for `",".join`, `", ".join` and `"/".join`). -/
def joinSep (sep : List Char) : List (List Char) → List Char
  | [] => []
  | [f] => f
  | f :: g :: fs => f ++ sep ++ joinSep sep (g :: fs)

/-- A classified frame before submission: the human message and the optional
performance-data strings, exactly the arguments each branch of
`handle_packet` passes to `submit_check`. -/
structure CheckResult where
  message : List Char
  metrics : Option (List (List Char))
deriving DecidableEq, Repr

/-- Body of the `aprs.PositionReport` case arm: message is the decoded
comment, no performance data; a decoding exception propagates. -/
def classifyPosition (comment : List Nat) : Except PyError CheckResult :=
  Except.bind (decodeAscii comment) fun text => .ok ⟨text, none⟩

/-- Body of the telemetry case arm
(`data_type=TELEMETRY_DATA`, comment starts with `#`):
`seq, *analog, bits = comment[1:].decode("ascii").split(",")` — the starred
unpack raises `ValueError` when there are fewer than two fields, otherwise
`seq` is the first field, `bits` the last and `analog` everything between —
then the `telem_seq=`/`telem_analog<i>=`/`telem_bits=` metric list is built
and the full decoded comment is the message. -/
def classifyTelemetry (comment : List Nat) : Except PyError CheckResult :=
  Except.bind (decodeAscii (comment.drop 1)) fun fieldsText =>
    if (splitComma fieldsText).length < 2 then .error PyError.ValueError
    else
      Except.bind (decodeAscii comment) fun text =>
        .ok ⟨text,
          some (("telem_seq=".data ++ (splitComma fieldsText).headD [])
            :: ((((splitComma fieldsText).drop 1).dropLast).enum.map fun p =>
                  "telem_analog".data ++ (Nat.repr p.1).data ++ "=".data ++ p.2)
            ++ ["telem_bits=".data ++ (splitComma fieldsText).getLastD []])⟩

/-- Body of the IGate status-beacon case arm
(`data_type=STATION_CAPABILITIES`, comment starts with `IGATE,`):
`igate_stats = comment.decode("ascii").split(",")[1:]`, message is the full
decoded comment. -/
def classifyIgate (comment : List Nat) : Except PyError CheckResult :=
  Except.bind (decodeAscii comment) fun text =>
    .ok ⟨text, some ((splitComma text).drop 1)⟩

/-- Body of the final catch-all `aprs.InformationField` case arm: message is
the decoded comment, no performance data. -/
def classifyGeneric (comment : List Nat) : Except PyError CheckResult :=
  Except.bind (decodeAscii comment) fun text => .ok ⟨text, none⟩

/-- The `match packet.info:` dispatch of `handle_packet`, with the case arms
tried in source order (first match wins): position report, then telemetry,
then IGate status beacon, then the generic information field. -/
def classify (info : Info) : Except PyError CheckResult :=
  match info with
  | .PositionReport comment => classifyPosition comment
  | .InformationField data_type comment =>
    if data_type = DataType.TELEMETRY_DATA ∧
        ("#".data.map Char.toNat).isPrefixOf comment then
      classifyTelemetry comment
    else if data_type = DataType.STATION_CAPABILITIES ∧
        ("IGATE,".data.map Char.toNat).isPrefixOf comment then
      classifyIgate comment
    else
      classifyGeneric comment

/-- The JSON body `submit_check` posts to `/v1/actions/process-check-result`.
Field names follow the dictionary keys in the source. -/
structure SubmitRequest where
  type : List Char
  filter : List Char
  exit_status : Nat
  plugin_output : List Char
  check_source : List Char
  performance_data : Option (List (List Char))
deriving DecidableEq, Repr

/-- Model of `APRSListener.submit_check`'s request construction: the filter
interpolates the callsign verbatim into an f-string, `exit_status` is the
literal 0, `plugin_output` prefixes the message with `OK: `, and
`performance_data` is included exactly when the caller passed one (the
parameter defaults to `None` in the source). -/
def submit_check (callsign message : List Char)
    (performance_data : Option (List (List Char))) : SubmitRequest :=
  { type := "Service".data
    filter := "service.name==\"aprsis\" && host.vars.aprs.callsign==\"".data
      ++ callsign ++ "\"".data
    exit_status := 0
    plugin_output := "OK: ".data ++ message
    check_source := "APRSIS".data
    performance_data := performance_data }

/-- Model of `APRSListener.handle_packet`: classification followed by one
`submit_check` call with the branch's message and performance data; any
exception raised during classification aborts the coroutine before any
submission is made. -/
def handle_packet (packet : Packet) : Except PyError SubmitRequest :=
  (classify packet.info).map fun res =>
    submit_check packet.source res.message res.metrics

/-- One host object of the directory response: the source reads
`host["attrs"]["vars"]["aprs"]["callsign"]`; the intermediate dictionary
nesting is flattened to that one attribute value. -/
structure DirHost where
  callsign : List Char
deriving DecidableEq, Repr

/-- The JSON object returned by `GET /v1/objects/hosts`: its `results` array
of host objects. -/
structure DirectoryResponse where
  results : List DirHost
deriving DecidableEq, Repr

/-- Model of `APRSListener.get_callsigns`: the list comprehension
`[host["attrs"]["vars"]["aprs"]["callsign"] for host in results]`. -/
def get_callsigns (r : DirectoryResponse) : List (List Char) :=
  r.results.map DirHost.callsign

/-- Observable actions of `APRSListener.run`: a console line, opening the
APRS-IS feed with a filter command, a completed submission, or a packet
task dying on an exception. -/
inductive RunEvent where
  | echoed (msg : List Char)
  | openedFeed (filterCommand : List Char)
  | submitted (req : SubmitRequest)
  | taskError (e : PyError)
deriving DecidableEq, Repr

/-- Model of `APRSListener.run` as the trace of its observable actions,
parameterised by the directory response and the finite prefix of frames the
feed delivers: if no callsigns come back, echo a notice and return without
opening the feed; otherwise open the feed filtered to the callsigns and
handle each packet in its own task. -/
def run (resp : DirectoryResponse) (frames : List Packet) : List RunEvent :=
  if (get_callsigns resp).isEmpty then
    [.echoed "No calligns defined in Icinga!".data]
  else
    .echoed ("Monitoring callsigns: ".data ++ joinSep ", ".data (get_callsigns resp))
      :: .openedFeed ("filter b/".data ++ joinSep "/".data (get_callsigns resp))
      :: frames.map fun p =>
          match handle_packet p with
          | .ok req => .submitted req
          | .error e => .taskError e

/-- What the second positional argument of a `click.echo` call can be bound
to at the call site in `submit_check`: left at its default `None`, or — as
the source actually does — the bound method `r.text` of the response. -/
inductive EchoFileArg where
  | defaultNone
  | responseTextMethod
deriving DecidableEq, Repr

/-- Model of `click.echo(message, file, ..., err=...)`: with `file=None` the
message is written to stdout/stderr; any other object is used as a stream,
and an object without a `write` attribute — such as the bound method
`r.text` — raises `AttributeError`. -/
def clickEcho (message : List Char) (file : EchoFileArg) (_err : Bool) :
    Except PyError (List Char) :=
  match file with
  | .defaultNone => .ok message
  | .responseTextMethod => .error PyError.AttributeError

/-- Outcome of the response handling at the end of `submit_check`. -/
inductive SubmitOutcome where
  | completed
  | logged (line : List Char)
  | raised (e : PyError)
deriving DecidableEq, Repr

/-- Model of the response handling in `submit_check`: on a non-200 status
the source runs `click.echo("Error:", r.text, err=True)` — the second
positional argument `r.text` binds to `click.echo`'s `file` parameter, not
to the message. -/
def submitResponseHandling (status : Nat) : SubmitOutcome :=
  if status ≠ 200 then
    match clickEcho "Error:".data EchoFileArg.responseTextMethod true with
    | .ok line => .logged line
    | .error e => .raised e
  else .completed

/-- The fixed text of the filter f-string up to and including the opening
quote of the interpolated callsign. -/
def callsignFilterPrefix : List Char :=
  "service.name==\"aprsis\" && host.vars.aprs.callsign==\"".data

/-- How a conventional lexer of the backend's filter language reads the
callsign out of the built filter expression: the characters after the
opening quote of the callsign position, up to the next double quote. -/
def parsedCallsignLiteral (f : List Char) : List Char :=
  (f.drop callsignFilterPrefix.length).takeWhile fun c => c != '"'

deriving instance DecidableEq for Except

theorem except_bind_ok {α β : Type} (a : α) (f : α → Except PyError β) :
    Except.bind (Except.ok a) f = f a := rfl

theorem except_bind_error {α β : Type} (e : PyError) (f : α → Except PyError β) :
    Except.bind (Except.error e) f = (Except.error e : Except PyError β) := rfl

theorem except_map_ok {α β : Type} (f : α → β) (a : α) :
    Except.map f (Except.ok a : Except PyError α) = Except.ok (f a) := rfl

theorem except_map_error {α β : Type} (f : α → β) (e : PyError) :
    Except.map f (Except.error e : Except PyError α) =
      (Except.error e : Except PyError β) := rfl

theorem map_ofNat_toNat (cs : List Char) : (cs.map Char.toNat).map Char.ofNat = cs := by
  induction cs with
  | nil => rfl
  | cons c cs ih => simp [Char.ofNat_toNat, ih]

theorem decodeAscii_map_toNat (cs : List Char) (h : ∀ c ∈ cs, c.toNat < 128) :
    decodeAscii (cs.map Char.toNat) = Except.ok cs := by
  unfold decodeAscii
  rw [if_pos, map_ofNat_toNat]
  simp only [List.all_eq_true, List.mem_map, decide_eq_true_eq]
  rintro b ⟨c, hc, rfl⟩
  exact h c hc

theorem decodeAscii_error (bs : List Nat) (b : Nat) (hb : b ∈ bs) (hbig : 128 ≤ b) :
    decodeAscii bs = Except.error PyError.UnicodeDecodeError := by
  unfold decodeAscii
  rw [if_neg]
  simp only [List.all_eq_true, decide_eq_true_eq]
  intro hall
  have := hall b hb
  omega

theorem splitComma_cons (c : Char) (cs : List Char) :
    splitComma (c :: cs) =
      if c = ',' then [] :: splitComma cs
      else
        match splitComma cs with
        | [] => [[c]]
        | f :: fs => (c :: f) :: fs := rfl

theorem splitComma_ne_nil (cs : List Char) : splitComma cs ≠ [] := by
  induction cs with
  | nil => simp [splitComma]
  | cons c cs ih =>
    rw [splitComma_cons]
    by_cases hc : c = ','
    · simp [hc]
    · rw [if_neg hc]
      cases h : splitComma cs <;> simp

theorem splitComma_no_comma (f : List Char) (hf : ',' ∉ f) : splitComma f = [f] := by
  induction f with
  | nil => rfl
  | cons c f ih =>
    have hc : ¬ (c = ',') := fun h => hf (by simp [h])
    rw [splitComma_cons, if_neg hc, ih (fun h => hf (by simp [h]))]

theorem splitComma_append (f rest : List Char) (hf : ',' ∉ f) :
    splitComma (f ++ ',' :: rest) = f :: splitComma rest := by
  induction f with
  | nil =>
    rw [List.nil_append, splitComma_cons, if_pos rfl]
  | cons c f ih =>
    have hc : ¬ (c = ',') := fun h => hf (by simp [h])
    rw [List.cons_append, splitComma_cons, if_neg hc, ih (fun h => hf (by simp [h]))]

theorem joinSep_cons_cons (sep f g : List Char) (fs : List (List Char)) :
    joinSep sep (f :: g :: fs) = f ++ sep ++ joinSep sep (g :: fs) := rfl

theorem splitComma_joinSep (fields : List (List Char)) (hne : fields ≠ [])
    (hf : ∀ f ∈ fields, ',' ∉ f) :
    splitComma (joinSep [','] fields) = fields := by
  induction fields with
  | nil => exact absurd rfl hne
  | cons f fs ih =>
    cases fs with
    | nil => exact splitComma_no_comma f (hf f (by simp))
    | cons g gs =>
      rw [joinSep_cons_cons]
      rw [show f ++ [','] ++ joinSep [','] (g :: gs) =
            f ++ ',' :: joinSep [','] (g :: gs) by simp]
      rw [splitComma_append _ _ (hf f (by simp)),
        ih (by simp) (fun x hx => hf x (by simp [hx]))]

theorem mem_joinSep (sep : List Char) (fields : List (List Char)) (c : Char)
    (hc : c ∈ joinSep sep fields) : c ∈ sep ∨ ∃ f ∈ fields, c ∈ f := by
  induction fields with
  | nil => simp [joinSep] at hc
  | cons f fs ih =>
    cases fs with
    | nil =>
      simp only [joinSep] at hc
      exact Or.inr ⟨f, by simp, hc⟩
    | cons g gs =>
      rw [joinSep_cons_cons] at hc
      rcases List.mem_append.1 hc with h1 | h2
      · rcases List.mem_append.1 h1 with h3 | h4
        · exact Or.inr ⟨f, by simp, h3⟩
        · exact Or.inl h4
      · rcases ih h2 with h | ⟨x, hx, hcx⟩
        · exact Or.inl h
        · exact Or.inr ⟨x, by simp [hx], hcx⟩

theorem joinSep_comma_ascii (fields : List (List Char))
    (hf : ∀ f ∈ fields, ∀ c ∈ f, c.toNat < 128) :
    ∀ c ∈ joinSep [','] fields, c.toNat < 128 := by
  intro c hc
  rcases mem_joinSep [','] fields c hc with h | ⟨f, hfmem, hcf⟩
  · simp only [List.mem_singleton] at h
    subst h
    decide
  · exact hf f hfmem c hcf


theorem classify_telemetry_dispatch (comment : List Nat)
    (hpre : ("#".data.map Char.toNat).isPrefixOf comment) :
    classify (Info.InformationField DataType.TELEMETRY_DATA comment) =
      classifyTelemetry comment := by
  simp only [classify]
  rw [if_pos ⟨trivial, hpre⟩]

theorem classify_igate_dispatch (comment : List Nat)
    (hpre : ("IGATE,".data.map Char.toNat).isPrefixOf comment) :
    classify (Info.InformationField DataType.STATION_CAPABILITIES comment) =
      classifyIgate comment := by
  simp only [classify]
  rw [if_neg (fun hcon => DataType.noConfusion hcon.1), if_pos ⟨trivial, hpre⟩]

/-- C1: for every telemetry comment of the form `#<seq>,<a0>,...,<an>,<bits>`
(n ≥ 0 analog fields, all fields ascii and comma-free), classification
produces exactly the metrics `telem_seq=<seq>`, `telem_analog0=<a0>`, ...,
`telem_analogN=<an>`, `telem_bits=<bits>` in that order, and the message is
the full decoded comment text. -/
theorem telemetry_classification_exact
    (seq bits : List Char) (analogs : List (List Char))
    (hascii : ∀ f ∈ seq :: analogs ++ [bits], ∀ c ∈ f, c.toNat < 128)
    (hnocomma : ∀ f ∈ seq :: analogs ++ [bits], ',' ∉ f) :
    classify (Info.InformationField DataType.TELEMETRY_DATA
        (('#' :: joinSep [','] (seq :: analogs ++ [bits])).map Char.toNat)) =
      Except.ok
        { message := '#' :: joinSep [','] (seq :: analogs ++ [bits])
          metrics := some (("telem_seq=".data ++ seq)
            :: (analogs.enum.map fun p =>
                  "telem_analog".data ++ (Nat.repr p.1).data ++ "=".data ++ p.2)
            ++ ["telem_bits=".data ++ bits]) } := by
  have hTascii : ∀ c ∈ joinSep [','] (seq :: analogs ++ [bits]), c.toNat < 128 :=
    joinSep_comma_ascii _ hascii
  have hfull : ∀ c ∈ '#' :: joinSep [','] (seq :: analogs ++ [bits]), c.toNat < 128 := by
    intro c hc
    rcases List.mem_cons.1 hc with rfl | h
    · decide
    · exact hTascii c h
  have hpre : ("#".data.map Char.toNat).isPrefixOf
      (('#' :: joinSep [','] (seq :: analogs ++ [bits])).map Char.toNat) = true := by
    rw [show ('#' :: joinSep [','] (seq :: analogs ++ [bits])).map Char.toNat =
          [35] ++ (joinSep [','] (seq :: analogs ++ [bits])).map Char.toNat from rfl]
    rw [show "#".data.map Char.toNat = [35] from rfl]
    rw [List.isPrefixOf_iff_prefix]
    exact List.prefix_append _ _
  rw [classify_telemetry_dispatch _ hpre]
  unfold classifyTelemetry
  rw [show (('#' :: joinSep [','] (seq :: analogs ++ [bits])).map Char.toNat).drop 1 =
        (joinSep [','] (seq :: analogs ++ [bits])).map Char.toNat from rfl]
  rw [decodeAscii_map_toNat _ hTascii, except_bind_ok]
  simp only []
  rw [splitComma_joinSep _ (by simp) hnocomma]
  rw [if_neg (by simp)]
  rw [decodeAscii_map_toNat _ hfull, except_bind_ok]
  simp only [List.cons_append, List.headD_cons, List.drop_one, List.tail_cons,
    List.dropLast_concat, List.getLastD_cons, List.getLastD_concat]

theorem telemetry_classification_exact_witness :
    classify (Info.InformationField DataType.TELEMETRY_DATA
        ("#005,099,128,00000000".data.map Char.toNat)) =
      Except.ok
        { message := "#005,099,128,00000000".data
          metrics := some ["telem_seq=005".data, "telem_analog0=099".data,
            "telem_analog1=128".data, "telem_bits=00000000".data] } :=
  telemetry_classification_exact "005".data "00000000".data
    ["099".data, "128".data] (by decide) (by decide)


/-- C2: a telemetry comment whose remainder after the leading `#` has fewer
than two comma-separated fields makes the starred unpack raise `ValueError`:
classification fails rather than truncating, and no submission is produced
for the frame. -/
theorem telemetry_malformed_rejected (src : List Char) (comment : List Nat)
    (text : List Char)
    (hpre : ("#".data.map Char.toNat).isPrefixOf comment)
    (hdec : decodeAscii (comment.drop 1) = Except.ok text)
    (hfew : (splitComma text).length < 2) :
    handle_packet ⟨src, Info.InformationField DataType.TELEMETRY_DATA comment⟩ =
      Except.error PyError.ValueError := by
  unfold handle_packet
  simp only []
  rw [classify_telemetry_dispatch _ hpre]
  unfold classifyTelemetry
  rw [hdec, except_bind_ok]
  simp only []
  rw [if_pos hfew]
  rfl

theorem telemetry_malformed_rejected_witness :
    ("#".data.map Char.toNat).isPrefixOf ("#005".data.map Char.toNat) ∧
    decodeAscii (("#005".data.map Char.toNat).drop 1) = Except.ok "005".data ∧
    (splitComma "005".data).length < 2 ∧
    handle_packet ⟨"KC1AAA".data,
        Info.InformationField DataType.TELEMETRY_DATA ("#005".data.map Char.toNat)⟩ =
      Except.error PyError.ValueError :=
  ⟨by decide, by decide, by decide,
    telemetry_malformed_rejected "KC1AAA".data _ "005".data
      (by decide) (by decide) (by decide)⟩

/-- C3: a status-beacon comment `IGATE,<t1>,<t2>,...` is classified by
dropping the leading `IGATE` tag and passing the remaining comma-separated
tokens through verbatim, in order, as the metrics; the message is the full
decoded comment text. -/
theorem igate_classification_exact (tokens : List (List Char)) (hne : tokens ≠ [])
    (hascii : ∀ t ∈ tokens, ∀ c ∈ t, c.toNat < 128)
    (hnocomma : ∀ t ∈ tokens, ',' ∉ t) :
    classify (Info.InformationField DataType.STATION_CAPABILITIES
        (("IGATE,".data ++ joinSep [','] tokens).map Char.toNat)) =
      Except.ok { message := "IGATE,".data ++ joinSep [','] tokens
                  metrics := some tokens } := by
  have hIG : ∀ c ∈ "IGATE,".data, c.toNat < 128 := by decide
  have hjascii : ∀ c ∈ joinSep [','] tokens, c.toNat < 128 :=
    joinSep_comma_ascii _ hascii
  have htext : ∀ c ∈ "IGATE,".data ++ joinSep [','] tokens, c.toNat < 128 := by
    intro c hc
    rcases List.mem_append.1 hc with h | h
    · exact hIG c h
    · exact hjascii c h
  have hpre : ("IGATE,".data.map Char.toNat).isPrefixOf
      (("IGATE,".data ++ joinSep [','] tokens).map Char.toNat) = true := by
    rw [List.map_append, List.isPrefixOf_iff_prefix]
    exact List.prefix_append _ _
  rw [classify_igate_dispatch _ hpre]
  unfold classifyIgate
  rw [decodeAscii_map_toNat _ htext, except_bind_ok]
  simp only []
  rw [show "IGATE,".data ++ joinSep [','] tokens =
        "IGATE".data ++ ',' :: joinSep [','] tokens from rfl]
  rw [splitComma_append _ _ (by decide), splitComma_joinSep _ hne hnocomma]
  simp only [List.drop_one, List.tail_cons]

theorem igate_classification_exact_witness :
    classify (Info.InformationField DataType.STATION_CAPABILITIES
        ("IGATE,RF=0,DIR=1".data.map Char.toNat)) =
      Except.ok { message := "IGATE,RF=0,DIR=1".data
                  metrics := some ["RF=0".data, "DIR=1".data] } :=
  igate_classification_exact ["RF=0".data, "DIR=1".data]
    (by decide) (by decide) (by decide)

/-- C4: the dispatch is first-match-wins: a frame that satisfies the
telemetry shape (telemetry data-type tag and a `#`-led comment) — which
would also fall into the generic catch-all — is always classified by the
telemetry branch; the concrete instance shows the two branches are
observably different (telemetry produces metrics, the generic branch none).
`classify` is a total function on the payload variants, so dispatch is
total and deterministic. -/
theorem telemetry_beats_generic :
    (∀ comment, ("#".data.map Char.toNat).isPrefixOf comment →
       classify (Info.InformationField DataType.TELEMETRY_DATA comment) =
         classifyTelemetry comment) ∧
    Except.map CheckResult.metrics
        (classify (Info.InformationField DataType.TELEMETRY_DATA
          ("#005,1".data.map Char.toNat))) =
      Except.ok (some ["telem_seq=005".data, "telem_bits=1".data]) ∧
    Except.map CheckResult.metrics
        (classifyGeneric ("#005,1".data.map Char.toNat)) =
      Except.ok none :=
  ⟨fun comment hpre => classify_telemetry_dispatch comment hpre, by decide, by decide⟩

theorem telemetry_beats_generic_witness :
    ("#".data.map Char.toNat).isPrefixOf ("#7,8".data.map Char.toNat) ∧
    classify (Info.InformationField DataType.TELEMETRY_DATA
        ("#7,8".data.map Char.toNat)) =
      classifyTelemetry ("#7,8".data.map Char.toNat) :=
  ⟨by decide, telemetry_beats_generic.1 _ (by decide)⟩


/-- C5: every check result that reaches submission — whichever branch
produced it — is built by `submit_check`: its `exit_status` is the numeric
success code 0 (no failing check is producible), its `plugin_output` is
`OK: ` followed by the message, and its `performance_data` field is exactly
the classification's metrics, hence present iff metrics were produced. -/
theorem submitted_checks_always_ok (p : Packet) (res : CheckResult)
    (h : classify p.info = Except.ok res) :
    handle_packet p = Except.ok (submit_check p.source res.message res.metrics) ∧
    (submit_check p.source res.message res.metrics).exit_status = 0 ∧
    (submit_check p.source res.message res.metrics).plugin_output =
      "OK: ".data ++ res.message ∧
    (submit_check p.source res.message res.metrics).performance_data = res.metrics ∧
    ((submit_check p.source res.message res.metrics).performance_data.isSome ↔
      res.metrics.isSome) := by
  refine ⟨?_, rfl, rfl, rfl, Iff.rfl⟩
  unfold handle_packet
  rw [h, except_map_ok]

theorem submitted_checks_always_ok_witness :
    classify (Info.PositionReport ("hello".data.map Char.toNat)) =
      Except.ok ⟨"hello".data, none⟩ ∧
    handle_packet ⟨"KC1GDW".data, Info.PositionReport ("hello".data.map Char.toNat)⟩ =
      Except.ok (submit_check "KC1GDW".data "hello".data none) ∧
    (submit_check "KC1GDW".data "hello".data none).exit_status = 0 :=
  ⟨by decide,
    (submitted_checks_always_ok
      ⟨"KC1GDW".data, Info.PositionReport ("hello".data.map Char.toNat)⟩
      ⟨"hello".data, none⟩ (by decide)).1,
    (submitted_checks_always_ok
      ⟨"KC1GDW".data, Info.PositionReport ("hello".data.map Char.toNat)⟩
      ⟨"hello".data, none⟩ (by decide)).2.1⟩

/-- C6: a comment containing any non-ascii byte (≥ 128) makes
`bytes.decode("ascii")` raise in whichever branch the frame falls into, so
classification fails with the decoding error, the frame is dropped, and no
submission is attempted. -/
theorem nonascii_comment_dropped (p : Packet) (b : Nat)
    (hmem : b ∈ p.info.comment) (hbig : 128 ≤ b) :
    handle_packet p = Except.error PyError.UnicodeDecodeError := by
  obtain ⟨src, info⟩ := p
  have hcl : classify info = Except.error PyError.UnicodeDecodeError := by
    cases info with
    | PositionReport c =>
      simp only [Info.comment] at hmem
      simp only [classify]
      unfold classifyPosition
      rw [decodeAscii_error c b hmem hbig, except_bind_error]
    | InformationField dt c =>
      simp only [Info.comment] at hmem
      have hgen : classifyGeneric c = Except.error PyError.UnicodeDecodeError := by
        unfold classifyGeneric
        rw [decodeAscii_error c b hmem hbig, except_bind_error]
      have higate : classifyIgate c = Except.error PyError.UnicodeDecodeError := by
        unfold classifyIgate
        rw [decodeAscii_error c b hmem hbig, except_bind_error]
      have htele : ("#".data.map Char.toNat).isPrefixOf c = true →
          classifyTelemetry c = Except.error PyError.UnicodeDecodeError := by
        intro hpre
        rw [List.isPrefixOf_iff_prefix] at hpre
        obtain ⟨t, ht⟩ := hpre
        rw [show "#".data.map Char.toNat = [35] from rfl] at ht
        subst ht
        have hbt : b ∈ ([35] ++ t).drop 1 := by
          show b ∈ t
          rcases List.mem_append.1 hmem with h | h
          · simp only [List.mem_singleton] at h
            omega
          · exact h
        unfold classifyTelemetry
        rw [decodeAscii_error _ b hbt hbig, except_bind_error]
      simp only [classify]
      by_cases h1 : dt = DataType.TELEMETRY_DATA ∧
          ("#".data.map Char.toNat).isPrefixOf c
      · rw [if_pos h1]
        exact htele h1.2
      · rw [if_neg h1]
        by_cases h2 : dt = DataType.STATION_CAPABILITIES ∧
            ("IGATE,".data.map Char.toNat).isPrefixOf c
        · rw [if_pos h2]
          exact higate
        · rw [if_neg h2]
          exact hgen
  unfold handle_packet
  simp only []
  rw [hcl, except_map_error]

theorem nonascii_comment_dropped_witness :
    (200 ∈ (Packet.mk "N0CALL".data
        (Info.InformationField DataType.STATION_CAPABILITIES [73, 71, 200])).info.comment) ∧
    128 ≤ 200 ∧
    handle_packet ⟨"N0CALL".data,
        Info.InformationField DataType.STATION_CAPABILITIES [73, 71, 200]⟩ =
      Except.error PyError.UnicodeDecodeError :=
  ⟨by decide, by decide,
    nonascii_comment_dropped
      ⟨"N0CALL".data, Info.InformationField DataType.STATION_CAPABILITIES [73, 71, 200]⟩
      200 (by decide) (by decide)⟩


theorem count_map_callsign (hosts : List DirHost) (cs : List Char) :
    (hosts.map DirHost.callsign).count cs =
      hosts.countP (fun h => h.callsign == cs) := by
  induction hosts with
  | nil => rfl
  | cons h hs ih =>
    simp only [List.map_cons, List.count_cons, List.countP_cons, ih]

theorem takeWhile_quote_beq_false (cs rest : List Char) (h : '"' ∈ cs) :
    (((cs ++ rest).takeWhile fun c => c != '"') == cs) = false := by
  rw [beq_eq_false_iff_ne]
  intro heq
  have h2 : ('"' : Char) ∈ (cs ++ rest).takeWhile fun c => c != '"' := by
    rw [heq]
    exact h
  have h3 := List.mem_takeWhile_imp h2
  simp at h3

/-- C7 (code-bug evidence): on a non-200 backend response the source runs
`click.echo("Error:", r.text, err=True)`; the second positional argument
`r.text` binds to `click.echo`'s `file` parameter, and writing to that
bound method raises `AttributeError` — so the error path raises inside the
per-packet task instead of logging, while a 200 response completes
silently. -/
theorem non200_response_raises_instead_of_logging :
    submitResponseHandling 500 = SubmitOutcome.raised PyError.AttributeError ∧
    submitResponseHandling 200 = SubmitOutcome.completed := ⟨rfl, rfl⟩

/-- C8: when the directory fetch yields no callsigns, `run` echoes a notice
and returns: the whole trace is that one line — no feed is opened and no
submission ever occurs, whatever frames the relay would have delivered. -/
theorem empty_directory_clean_stop (resp : DirectoryResponse) (frames : List Packet)
    (h : get_callsigns resp = []) :
    run resp frames = [RunEvent.echoed "No calligns defined in Icinga!".data] := by
  unfold run
  rw [h]
  rfl

theorem empty_directory_clean_stop_witness :
    get_callsigns ⟨[]⟩ = [] ∧
    run ⟨[]⟩ [⟨"N0CALL".data, Info.PositionReport [104]⟩] =
      [RunEvent.echoed "No calligns defined in Icinga!".data] :=
  ⟨rfl, empty_directory_clean_stop ⟨[]⟩
    [⟨"N0CALL".data, Info.PositionReport [104]⟩] rfl⟩

/-- C9 (counterexample): two hosts carrying the same callsign attribute —
`get_callsigns` returns the value twice, not a deduplicated set: the claim
that each distinct attribute value appears exactly once fails on this
response. -/
theorem get_callsigns_keeps_duplicates :
    get_callsigns ⟨[⟨"W1AW".data⟩, ⟨"W1AW".data⟩]⟩ = ["W1AW".data, "W1AW".data] ∧
    (get_callsigns ⟨[⟨"W1AW".data⟩, ⟨"W1AW".data⟩]⟩).count "W1AW".data = 2 :=
  ⟨rfl, by decide⟩

/-- C9 (amended): `get_callsigns` returns one attribute value per qualifying
host of the response, in response order — a list, not a set: a callsign
occurs exactly as many times as hosts that carry it, so duplicates are
preserved. -/
theorem get_callsigns_one_per_host (r : DirectoryResponse) (cs : List Char) :
    (get_callsigns r).length = r.results.length ∧
    (get_callsigns r).count cs = r.results.countP (fun h => h.callsign == cs) :=
  ⟨by simp [get_callsigns], count_map_callsign r.results cs⟩

/-- C10: the filter expression is the f-string template with the callsign
inserted verbatim — no escaping, no validation — so a callsign containing a
double quote changes the structure of the expression: the quoted literal a
lexer reads back out of the built filter is not the callsign. -/
theorem filter_interpolates_callsign_verbatim (callsign message : List Char)
    (pd : Option (List (List Char))) :
    (submit_check callsign message pd).filter =
      callsignFilterPrefix ++ callsign ++ "\"".data ∧
    ('"' ∈ callsign →
      (parsedCallsignLiteral (submit_check callsign message pd).filter ==
        callsign) = false) := by
  have hf : (submit_check callsign message pd).filter =
      callsignFilterPrefix ++ (callsign ++ "\"".data) := by
    show "service.name==\"aprsis\" && host.vars.aprs.callsign==\"".data
        ++ callsign ++ "\"".data = callsignFilterPrefix ++ (callsign ++ "\"".data)
    rw [List.append_assoc]
    rfl
  constructor
  · rw [hf, List.append_assoc]
  · intro hq
    unfold parsedCallsignLiteral
    rw [hf, List.drop_left]
    exact takeWhile_quote_beq_false callsign _ hq

theorem filter_interpolates_callsign_verbatim_witness :
    ('"' ∈ "AB\"CD".data) ∧
    ((parsedCallsignLiteral (submit_check "AB\"CD".data "msg".data none).filter ==
        "AB\"CD".data) = false) :=
  ⟨by decide,
    (filter_interpolates_callsign_verbatim "AB\"CD".data "msg".data none).2 (by decide)⟩

end CheckAprs
